import Mathlib

/-
Verification of the RxAssistant prescription-processing front end.

The React application in frontend/src/App.jsx is embedded as a pure
event-trace semantics: every call the component makes to a React state
setter (setMessages, setMedicines, ...) or to the network (axios.post)
is recorded as an `Event` in program order, and the component state is
recovered by folding the updates over an `AppState`.  The three awaited
HTTP responses of one pipeline run are supplied up front as an `Env`
(a thrown network error is `Except.error`, an HTTP 200 body is
`Except.ok`), which makes `processPrescription` a total function from
the run's inputs to its trace, exactly following the JavaScript
control flow (sequential awaits, `throw` on `success:false`, one
`catch`, one `finally`).
-/

namespace Rx

/-- A selected file: its name and (abstract) binary content.  The
FileReader data URL produced for the preview is not inspected by any
property, so the content is kept as an opaque string. -/
structure FileRef where
  name : String
  data : String
deriving DecidableEq, Repr

/-- One medicine-name correction entry as returned by /extract-meds. -/
structure MedicineCorrection where
  original : String
  corrected : String
  confidence : Nat
  method : String
  explanation : String
  is_valid : Bool
deriving DecidableEq, Repr

/-- One structured medicine record as returned by /med-info. -/
structure MedicineInfo where
  name : String
  category : String
  description : String
  dosage : String
  side_effects : String
  precautions : String
  verified : Bool
deriving DecidableEq, Repr

/-- Body of an /ocr response. -/
structure OcrData where
  success : Bool
  text : String
  message : String
deriving DecidableEq, Repr

/-- Body of an /extract-meds response. -/
structure MedsData where
  success : Bool
  medicines : List MedicineCorrection
  correction_summary : String
deriving DecidableEq, Repr

/-- Body of a /med-info response. -/
structure InfoData where
  success : Bool
  medicines_info : List MedicineInfo
deriving DecidableEq, Repr

/-- Body of a /chat response. -/
structure ChatData where
  success : Bool
  response : String
deriving DecidableEq, Repr

/-- The three step responses one pipeline run will receive.
`Except.error e` models the axios promise rejecting with message `e`;
`Except.ok d` models an HTTP 200 body `d` (whose `success` field may
still be false). -/
structure Env where
  ocr : Except String OcrData
  meds : Except String MedsData
  info : Except String InfoData
deriving Repr

/-- A chat transcript entry.  The source also stamps the wall-clock
time (`new Date().toISOString()`); no property depends on it, so it is
not modelled. -/
structure ChatMessage where
  sender : String
  content : String
deriving DecidableEq, Repr

/-- The payload handed to the results modal on completion. -/
structure ModalResults where
  extractedText : String
  medicines : List MedicineInfo
  medicineCorrections : List MedicineCorrection
  fileName : String
deriving DecidableEq, Repr

/-- An outbound HTTP request, identified by endpoint and payload. -/
inductive Request where
  | ocr (fileName : String)
  | extractMeds (prescription_text : String)
  | medInfo (medicines : List String)
  | chat (message : String) (context : String)
deriving DecidableEq, Repr

/-- One call to a React state setter of the App component. -/
inductive Update where
  | setIsProcessing (b : Bool)
  | setIsTyping (b : Bool)
  | setIsChatProcessing (b : Bool)
  | addMessage (m : ChatMessage)
  | setMessages (l : List ChatMessage)
  | setExtractedText (t : String)
  | setMedicineCorrections (l : List MedicineCorrection)
  | setMedicines (l : List MedicineInfo)
  | setCurrentFile (f : Option FileRef)
  | setShowResultsModal (b : Bool)
  | setModalResults (r : Option ModalResults)
deriving DecidableEq, Repr

/-- One observable action of the component: a state update or an
outbound request. -/
inductive Event where
  | upd (u : Update)
  | req (r : Request)
deriving DecidableEq, Repr

/-- The App component state (the useState hooks of AppContent). -/
structure AppState where
  messages : List ChatMessage
  isTyping : Bool
  isProcessing : Bool
  medicines : List MedicineInfo
  medicineCorrections : List MedicineCorrection
  extractedText : String
  isChatProcessing : Bool
  currentFile : Option FileRef
  showResultsModal : Bool
  modalResults : Option ModalResults
deriving DecidableEq, Repr

/-- The initial state of every useState hook in AppContent. -/
def initialAppState : AppState :=
  { messages := []
    isTyping := false
    isProcessing := false
    medicines := []
    medicineCorrections := []
    extractedText := ""
    isChatProcessing := false
    currentFile := none
    showResultsModal := false
    modalResults := none }

/-- Apply one setter call to the component state. -/
def applyUpdate (s : AppState) : Update → AppState
  | Update.setIsProcessing b => { s with isProcessing := b }
  | Update.setIsTyping b => { s with isTyping := b }
  | Update.setIsChatProcessing b => { s with isChatProcessing := b }
  | Update.addMessage m => { s with messages := s.messages ++ [m] }
  | Update.setMessages l => { s with messages := l }
  | Update.setExtractedText t => { s with extractedText := t }
  | Update.setMedicineCorrections l => { s with medicineCorrections := l }
  | Update.setMedicines l => { s with medicines := l }
  | Update.setCurrentFile f => { s with currentFile := f }
  | Update.setShowResultsModal b => { s with showResultsModal := b }
  | Update.setModalResults r => { s with modalResults := r }

/-- Apply one event: requests do not change component state. -/
def applyEvent (s : AppState) : Event → AppState
  | Event.upd u => applyUpdate s u
  | Event.req _ => s

/-- Replay a trace of events over a state. -/
def applyEvents (s : AppState) (t : List Event) : AppState :=
  t.foldl applyEvent s

/-- The requests a trace issues, in order. -/
def requestsOf (t : List Event) : List Request :=
  t.filterMap fun e =>
    match e with
    | Event.req r => some r
    | Event.upd _ => none

/-- The chat messages a trace appends, in order. -/
def messagesOf (t : List Event) : List ChatMessage :=
  t.filterMap fun e =>
    match e with
    | Event.upd (Update.addMessage m) => some m
    | _ => none

/-- The sentinel correction summary (App.jsx line 150). -/
def sentinelSummary : String := "All medicine names were accurate."

/-- The count-and-list part of the medicines-found chat message
(App.jsx line 148). -/
def medicineCountMessage (m : MedsData) : String :=
  let names := m.medicines.map fun med => med.corrected
  "I found " ++ toString names.length ++ " medicine(s) in your prescription: "
    ++ String.intercalate ", " names

/-- The full medicines-found chat message: the correction summary is
appended exactly when it is truthy (non-empty) and differs from the
sentinel (App.jsx lines 148-152). -/
def medicineFoundMessage (m : MedsData) : String :=
  if m.correction_summary ≠ "" ∧ m.correction_summary ≠ sentinelSummary then
    medicineCountMessage m ++ "\n\n" ++ m.correction_summary
  else
    medicineCountMessage m

/-- The AI message announcing the OCR result (App.jsx line 130);
JavaScript `text.split(' ').length` is `(text.splitOn " ").length`. -/
def ocrWordsMessage (text : String) : String :=
  "I\x27ve extracted the text from your prescription. Found "
    ++ toString (text.splitOn " ").length ++ " words."

/-- The final AI message of a successful run (App.jsx line 169). -/
def analysisCompleteMessage : String :=
  "I\x27ve analyzed your prescription and prepared detailed information for each medicine. You can view the details below."

/-- The AI message appended by the catch block (App.jsx line 184). -/
def prescriptionErrorMessage (e : String) : String :=
  "Sorry, I encountered an error while processing your prescription: "
    ++ e ++ ". Please try again with a clearer image."

/-- The try block of processPrescription (App.jsx lines 108-181):
the events it performs in order, together with the thrown error, if
any.  A `throw new Error(msg)` caught by the catch block is returned
as `some msg`. -/
def tryBody (file : FileRef) (env : Env) : List Event × Option String :=
  let intro : List Event :=
    [Event.upd (Update.addMessage ⟨"user", "Uploaded prescription: " ++ file.name⟩),
     Event.req (Request.ocr file.name)]
  match env.ocr with
  | Except.error e => (intro, some e)
  | Except.ok ocrResponse =>
    if ocrResponse.success = false then
      (intro, some ocrResponse.message)
    else
      let extractedText := ocrResponse.text
      let step1 : List Event := intro ++
        [Event.upd (Update.setExtractedText extractedText),
         Event.upd (Update.addMessage ⟨"ai", ocrWordsMessage extractedText⟩),
         Event.req (Request.extractMeds extractedText)]
      match env.meds with
      | Except.error e => (step1, some e)
      | Except.ok medsResponse =>
        if medsResponse.success = false then
          (step1, some "Could not identify medicines in the prescription")
        else
          let medicineData := medsResponse.medicines
          let medicineNames := medicineData.map fun med => med.corrected
          let step2 : List Event := step1 ++
            [Event.upd (Update.setMedicineCorrections medicineData),
             Event.upd (Update.addMessage ⟨"ai", medicineFoundMessage medsResponse⟩),
             Event.req (Request.medInfo medicineNames)]
          match env.info with
          | Except.error e => (step2, some e)
          | Except.ok medInfoResponse =>
            if medInfoResponse.success = false then
              (step2, some "Could not retrieve medicine information")
            else
              let medicinesInfo := medInfoResponse.medicines_info
              (step2 ++
                [Event.upd (Update.setMedicines medicinesInfo),
                 Event.upd (Update.addMessage ⟨"ai", analysisCompleteMessage⟩),
                 Event.upd (Update.setModalResults
                   (some ⟨extractedText, medicinesInfo, medicineData, file.name⟩)),
                 Event.upd (Update.setShowResultsModal true)],
               none)

/-- The error processPrescription's catch block receives for this run,
if any step fails. -/
def runError (file : FileRef) (env : Env) : Option String :=
  (tryBody file env).2

/-- The full event trace of processPrescription (App.jsx lines
104-190): flags set, try block, catch block appending one error
message, finally block resetting the flags. -/
def processPrescription (file : FileRef) (env : Env) : List Event :=
  let body := tryBody file env
  Event.upd (Update.setIsProcessing true) ::
  Event.upd (Update.setIsTyping true) ::
  (body.1 ++
    (match body.2 with
     | some e => [Event.upd (Update.addMessage ⟨"ai", prescriptionErrorMessage e⟩)]
     | none => []) ++
    [Event.upd (Update.setIsTyping false),
     Event.upd (Update.setIsProcessing false)])

/-- handleFileUpload (App.jsx lines 192-195): store the file, then
start processing it. -/
def handleFileUpload (file : FileRef) (env : Env) : List Event :=
  Event.upd (Update.setCurrentFile (some file)) :: processPrescription file env

/-- clearResults (App.jsx lines 197-205). -/
def clearResultsEvents : List Event :=
  [Event.upd (Update.setMedicines []),
   Event.upd (Update.setMedicineCorrections []),
   Event.upd (Update.setExtractedText ""),
   Event.upd (Update.setMessages []),
   Event.upd (Update.setCurrentFile none),
   Event.upd (Update.setShowResultsModal false),
   Event.upd (Update.setModalResults none)]

/-- handleAnalyze (App.jsx lines 207-211): re-process the currently
stored file, if any. -/
def handleAnalyze (s : AppState) (env : Env) : List Event :=
  match s.currentFile with
  | some f => processPrescription f env
  | none => []

/-- handleChatMessage (App.jsx lines 213-245): the trace of one chat
Q&A submission given the current state and the /chat response. -/
def handleChatMessage (message : String) (s : AppState)
    (resp : Except String ChatData) : List Event :=
  let context :=
    if s.medicines.length > 0 then
      "Current medicines: " ++ String.intercalate ", " (s.medicines.map fun m => m.name)
    else ""
  Event.upd (Update.setIsChatProcessing true) ::
  Event.upd (Update.setIsTyping true) ::
  Event.upd (Update.addMessage ⟨"user", message⟩) ::
  Event.req (Request.chat message context) ::
  ((match resp with
    | Except.ok r =>
      if r.success then
        [Event.upd (Update.addMessage ⟨"ai", r.response⟩)]
      else
        [Event.upd (Update.addMessage ⟨"ai", "Sorry, I encountered an error. Please try again."⟩)]
    | Except.error _ =>
      [Event.upd (Update.addMessage ⟨"ai", "Sorry, I encountered an error while processing your message. Please try again."⟩)]) ++
   [Event.upd (Update.setIsTyping false),
    Event.upd (Update.setIsChatProcessing false)])

/-- The UploadCard component state (UploadCard.jsx lines 7-8). -/
structure UploadState where
  preview : Option String
  fileName : String
deriving DecidableEq, Repr

/-- One call to a UploadCard state setter. -/
inductive UpEvent where
  | setPreview (p : Option String)
  | setFileName (n : String)
deriving DecidableEq, Repr

/-- Initial UploadCard state: useState(null), useState(''). -/
def initialUploadState : UploadState := ⟨none, ""⟩

/-- Apply one UploadCard setter call. -/
def applyUpEvent (u : UploadState) : UpEvent → UploadState
  | UpEvent.setPreview p => { u with preview := p }
  | UpEvent.setFileName n => { u with fileName := n }

/-- Replay UploadCard setter calls. -/
def applyUpEvents (u : UploadState) (t : List UpEvent) : UploadState :=
  t.foldl applyUpEvent u

/-- The FileReader.readAsDataURL result for a file.  No property
inspects the data-URL encoding, so it is modelled as the raw content. -/
def readerResult (f : FileRef) : String := f.data

/-- onDrop (UploadCard.jsx lines 10-25): takes the first accepted file
only, sets the file name, produces the local preview, and invokes the
onFileUpload callback, which is App's handleFileUpload.  The preview
is set in the asynchronous reader.onload callback; its events and the
callback's events are returned as separate components, so no ordering
between the two components is asserted. -/
def onDrop (acceptedFiles : List FileRef) (env : Env) :
    List UpEvent × List Event :=
  match acceptedFiles with
  | [] => ([], [])
  | file :: _ =>
    ([UpEvent.setFileName file.name,
      UpEvent.setPreview (some (readerResult file))],
     handleFileUpload file env)

/-- clearFile (UploadCard.jsx lines 36-39): resets only the card's own
preview and file name.  It performs no App-level update, which the
event type records. -/
def clearFileEvents : List UpEvent :=
  [UpEvent.setPreview none, UpEvent.setFileName ""]

/-- Modelled from the spec: the backend /med-info endpoint is not part
of the sources under verification (only its frontend caller is), so it
is taken from spec section 4.4: it returns one MedicineInfo per
requested name, keyed by that name; when no information is found for a
name, the entry still appears with category "general medication" and
verified false rather than being dropped. -/
def getMedicineInfo (knowledge : String → Option MedicineInfo)
    (names : List String) : InfoData :=
  { success := true
    medicines_info := names.map fun n =>
      match knowledge n with
      | some found => { found with name := n }
      | none =>
        { name := n
          category := "general medication"
          description := ""
          dosage := ""
          side_effects := ""
          precautions := ""
          verified := false } }

/-- An interleaving of two event sequences: the merge order seen by
the single-threaded event loop when two pipeline runs are in flight.
Each run's own events keep their relative order. -/
inductive Interleave {α : Type} : List α → List α → List α → Prop
  | nil : Interleave [] [] []
  | left {x : α} {xs ys zs : List α} :
      Interleave xs ys zs → Interleave (x :: xs) ys (x :: zs)
  | right {y : α} {xs ys zs : List α} :
      Interleave xs ys zs → Interleave xs (y :: ys) (y :: zs)

theorem interleave_nil_left {α : Type} (xs : List α) : Interleave xs [] xs := by
  induction xs with
  | nil => exact Interleave.nil
  | cons x xs ih => exact Interleave.left ih

theorem interleave_prepend_right {α : Type} (bs : List α) {xs ys zs : List α}
    (h : Interleave xs ys zs) : Interleave xs (bs ++ ys) (bs ++ zs) := by
  induction bs with
  | nil => exact h
  | cons b bs ih => exact Interleave.right ih

theorem interleave_prepend_left {α : Type} (as : List α) {xs ys zs : List α}
    (h : Interleave xs ys zs) : Interleave (as ++ xs) ys (as ++ zs) := by
  induction as with
  | nil => exact h
  | cons a as ih => exact Interleave.left ih

theorem applyEvents_append (s : AppState) (t1 t2 : List Event) :
    applyEvents s (t1 ++ t2) = applyEvents (applyEvents s t1) t2 := by
  simp [applyEvents, List.foldl_append]

theorem messagesOf_append (t1 t2 : List Event) :
    messagesOf (t1 ++ t2) = messagesOf t1 ++ messagesOf t2 := by
  simp [messagesOf]

theorem requestsOf_append (t1 t2 : List Event) :
    requestsOf (t1 ++ t2) = requestsOf t1 ++ requestsOf t2 := by
  simp [requestsOf]

/-- True of every event except a wholesale replacement of the
transcript. -/
def keepsMessages : Event → Bool
  | Event.upd (Update.setMessages _) => false
  | _ => true

/-- A trace that never replaces the transcript only appends to it. -/
theorem applyEvents_messages (s : AppState) (t : List Event)
    (h : t.all keepsMessages = true) :
    (applyEvents s t).messages = s.messages ++ messagesOf t := by
  induction t generalizing s with
  | nil => simp [applyEvents, messagesOf]
  | cons e t ih =>
    rw [List.all_cons, Bool.and_eq_true] at h
    cases e with
    | req r =>
      have := ih (applyEvent s (Event.req r)) h.2
      simpa [applyEvents, applyEvent, messagesOf] using this
    | upd u =>
      cases u with
      | setMessages l => simp [keepsMessages] at h
      | addMessage m =>
        have := ih (applyEvent s (Event.upd (Update.addMessage m))) h.2
        simpa [applyEvents, applyEvent, applyUpdate, messagesOf] using this
      | setIsProcessing b =>
        have := ih (applyEvent s (Event.upd (Update.setIsProcessing b))) h.2
        simpa [applyEvents, applyEvent, applyUpdate, messagesOf] using this
      | setIsTyping b =>
        have := ih (applyEvent s (Event.upd (Update.setIsTyping b))) h.2
        simpa [applyEvents, applyEvent, applyUpdate, messagesOf] using this
      | setIsChatProcessing b =>
        have := ih (applyEvent s (Event.upd (Update.setIsChatProcessing b))) h.2
        simpa [applyEvents, applyEvent, applyUpdate, messagesOf] using this
      | setExtractedText x =>
        have := ih (applyEvent s (Event.upd (Update.setExtractedText x))) h.2
        simpa [applyEvents, applyEvent, applyUpdate, messagesOf] using this
      | setMedicineCorrections l =>
        have := ih (applyEvent s (Event.upd (Update.setMedicineCorrections l))) h.2
        simpa [applyEvents, applyEvent, applyUpdate, messagesOf] using this
      | setMedicines l =>
        have := ih (applyEvent s (Event.upd (Update.setMedicines l))) h.2
        simpa [applyEvents, applyEvent, applyUpdate, messagesOf] using this
      | setCurrentFile f =>
        have := ih (applyEvent s (Event.upd (Update.setCurrentFile f))) h.2
        simpa [applyEvents, applyEvent, applyUpdate, messagesOf] using this
      | setShowResultsModal b =>
        have := ih (applyEvent s (Event.upd (Update.setShowResultsModal b))) h.2
        simpa [applyEvents, applyEvent, applyUpdate, messagesOf] using this
      | setModalResults r =>
        have := ih (applyEvent s (Event.upd (Update.setModalResults r))) h.2
        simpa [applyEvents, applyEvent, applyUpdate, messagesOf] using this

theorem keeps_tryBody (f : FileRef) (env : Env) :
    (tryBody f env).1.all keepsMessages = true := by
  obtain ⟨ocr, meds, info⟩ := env
  cases ocr with
  | error e => simp [tryBody, keepsMessages]
  | ok o =>
    cases meds with
    | error e =>
      cases ho : o.success <;> simp [tryBody, ho, keepsMessages]
    | ok m =>
      cases info with
      | error e =>
        cases ho : o.success <;> cases hm : m.success <;>
          simp [tryBody, ho, hm, keepsMessages]
      | ok i =>
        cases ho : o.success <;> cases hm : m.success <;> cases hi : i.success <;>
          simp [tryBody, ho, hm, hi, keepsMessages]

theorem keeps_processPrescription (f : FileRef) (env : Env) :
    (processPrescription f env).all keepsMessages = true := by
  cases he : (tryBody f env).2 with
  | none => simp [processPrescription, he, keepsMessages, keeps_tryBody f env]
  | some e => simp [processPrescription, he, keepsMessages, keeps_tryBody f env]

theorem keeps_handleFileUpload (f : FileRef) (env : Env) :
    (handleFileUpload f env).all keepsMessages = true := by
  simp [handleFileUpload, keepsMessages, keeps_processPrescription f env]

theorem keeps_handleAnalyze (s : AppState) (env : Env) :
    (handleAnalyze s env).all keepsMessages = true := by
  cases hc : s.currentFile with
  | none => simp [handleAnalyze, hc]
  | some f => simp [handleAnalyze, hc, keeps_processPrescription f env]

theorem keeps_handleChatMessage (message : String) (s : AppState)
    (resp : Except String ChatData) :
    (handleChatMessage message s resp).all keepsMessages = true := by
  cases resp with
  | error e => simp [handleChatMessage, keepsMessages]
  | ok r => cases hr : r.success <;> simp [handleChatMessage, hr, keepsMessages]

/-- Two strings whose first characters differ are different. -/
theorem string_ne_of_head {a b : String}
    (h : a.data.head? ≠ b.data.head?) : a ≠ b :=
  fun hab => h (congrArg (fun s => s.data.head?) hab)

/-- The first character of an append is the first character of the
left part when that part is non-empty. -/
theorem head_append {a : String} (x : String) {c : Char}
    (h : a.data.head? = some c) : (a ++ x).data.head? = some c := by
  rw [String.data_append]
  cases hd : a.data with
  | nil => rw [hd] at h; simp at h
  | cons c0 cs => rw [hd] at h; simp at h; simp [h]

/-- Claim C10: every invocation of the chat Q&A handler appends
exactly two messages — first the user message with the submitted text,
then exactly one AI reply — on every path (success, success:false,
thrown network error), the appends extend the existing transcript, and
the chat-processing and typing flags are reset afterwards. -/
theorem c10_chat_exactly_two_messages (message : String) (s : AppState)
    (resp : Except String ChatData) :
    (messagesOf (handleChatMessage message s resp)).length = 2
  ∧ (messagesOf (handleChatMessage message s resp))[0]? = some ⟨"user", message⟩
  ∧ ((messagesOf (handleChatMessage message s resp))[1]?.map fun m => m.sender)
      = some "ai"
  ∧ (applyEvents s (handleChatMessage message s resp)).messages
      = s.messages ++ messagesOf (handleChatMessage message s resp)
  ∧ (applyEvents s (handleChatMessage message s resp)).isTyping = false
  ∧ (applyEvents s (handleChatMessage message s resp)).isChatProcessing = false := by
  refine ⟨?_, ?_, ?_, applyEvents_messages s _ (keeps_handleChatMessage message s resp), ?_, ?_⟩ <;>
    (cases resp with
     | error e => simp [handleChatMessage, messagesOf, applyEvents, applyEvent, applyUpdate]
     | ok r =>
       cases hr : r.success <;>
         simp [handleChatMessage, hr, messagesOf, applyEvents, applyEvent, applyUpdate])

/-- Claim C9, counterexample: the Clear Results operation replaces the
transcript with the empty list, removing the previously appended
message, so the transcript is not append-only over the lifetime of the
session. -/
theorem c9_clear_results_removes_messages :
    (applyEvents { initialAppState with messages := [⟨"user", "hello"⟩] }
        clearResultsEvents).messages = []
  ∧ ([(⟨"user", "hello"⟩ : ChatMessage)] : List ChatMessage) ≠ [] := by
  exact ⟨rfl, by simp⟩

/-- Claim C9, amended: every operation of the application except
clearResults either leaves the transcript unchanged or appends to its
end — in particular a run failure and the start of a new run preserve
all prior messages — while clearResults resets the transcript to the
empty list. -/
theorem c9_append_only_except_clear_results (s : AppState) (f : FileRef)
    (env : Env) (message : String) (resp : Except String ChatData) :
    ((applyEvents s (processPrescription f env)).messages
        = s.messages ++ messagesOf (processPrescription f env))
  ∧ ((applyEvents s (handleFileUpload f env)).messages
        = s.messages ++ messagesOf (handleFileUpload f env))
  ∧ ((applyEvents s (handleAnalyze s env)).messages
        = s.messages ++ messagesOf (handleAnalyze s env))
  ∧ ((applyEvents s (handleChatMessage message s resp)).messages
        = s.messages ++ messagesOf (handleChatMessage message s resp))
  ∧ (applyEvents s clearResultsEvents).messages = [] := by
  refine ⟨applyEvents_messages s _ (keeps_processPrescription f env),
          applyEvents_messages s _ (keeps_handleFileUpload f env),
          applyEvents_messages s _ (keeps_handleAnalyze s env),
          applyEvents_messages s _ (keeps_handleChatMessage message s resp),
          ?_⟩
  simp [clearResultsEvents, applyEvents, applyEvent, applyUpdate]

/-- Claim C7, counterexample: selecting a file is not network-silent —
onDrop invokes the onFileUpload callback, which is handleFileUpload,
which immediately runs the pipeline, so the selection itself already
issues the OCR request (and, the responses arriving, the two later
requests), with no separate user action in between. -/
theorem c7_selection_issues_requests :
    requestsOf (onDrop [⟨"rx1.jpg", "IMGDATA"⟩]
      ⟨Except.ok ⟨true, "Paracetamol 500mg twice daily", ""⟩,
       Except.ok ⟨true, [⟨"Paracetamol", "Paracetamol", 95, "none", "", true⟩],
         "All medicine names were accurate."⟩,
       Except.ok ⟨true, [⟨"Paracetamol", "analgesic", "", "", "", "", true⟩]⟩⟩).2
      = [Request.ocr "rx1.jpg",
         Request.extractMeds "Paracetamol 500mg twice daily",
         Request.medInfo ["Paracetamol"]]
  ∧ requestsOf (onDrop [⟨"rx1.jpg", "IMGDATA"⟩]
      ⟨Except.error "Network Error", Except.error "Network Error",
       Except.error "Network Error"⟩).2
      = [Request.ocr "rx1.jpg"] := by
  exact ⟨rfl, rfl⟩

/-- Claim C7, amended: a file selection takes at most the first file
of a multi-file drop, produces only a local preview in the collector's
own state (a data URL read locally; the PDF glyph is chosen at render
time from the file name), and in the same handler invokes the upload
callback, which starts the pipeline — so the OCR network request is
issued as part of the selection flow rather than by a later user
action. -/
theorem c7_first_file_preview_then_pipeline (f : FileRef)
    (rest : List FileRef) (env : Env) :
    onDrop (f :: rest) env = onDrop [f] env
  ∧ (onDrop (f :: rest) env).1
      = [UpEvent.setFileName f.name, UpEvent.setPreview (some (readerResult f))]
  ∧ (onDrop (f :: rest) env).2 = handleFileUpload f env
  ∧ onDrop [] env = ([], []) := by
  exact ⟨rfl, rfl, rfl, rfl⟩

/-- Claim C8, counterexample: clearing the selected file resets only
the collector's preview and file name; the application-level
currentFile reference survives, so a subsequent analyze action still
has the cleared file to operate on and re-issues its OCR request. -/
theorem c8_clear_leaves_current_file :
    applyUpEvents ⟨some "dataurl", "rx1.jpg"⟩ clearFileEvents = ⟨none, ""⟩
  ∧ ({ initialAppState with currentFile := some ⟨"rx1.jpg", "IMGDATA"⟩ } : AppState).currentFile
      = some ⟨"rx1.jpg", "IMGDATA"⟩
  ∧ requestsOf (handleAnalyze
      { initialAppState with currentFile := some ⟨"rx1.jpg", "IMGDATA"⟩ }
      ⟨Except.error "Network Error", Except.error "Network Error",
       Except.error "Network Error"⟩)
      = [Request.ocr "rx1.jpg"] := by
  exact ⟨rfl, rfl, rfl⟩

/-- Claim C8, amended: clearing resets the collector to its empty
state (no preview, empty file name), but does not touch the
application state; while currentFile still holds a file, an analyze
action processes that file as if it had never been cleared. -/
theorem c8_clear_resets_collector_only (u : UploadState) (s : AppState)
    (f : FileRef) (env : Env) (h : s.currentFile = some f) :
    applyUpEvents u clearFileEvents = ⟨none, ""⟩
  ∧ handleAnalyze s env = processPrescription f env := by
  constructor
  · rfl
  · simp [handleAnalyze, h]

/-- Witness for c8_clear_resets_collector_only at a concrete state. -/
theorem c8_clear_resets_collector_only_witness :
    applyUpEvents ⟨some "p", "a.png"⟩ clearFileEvents = ⟨none, ""⟩
  ∧ handleAnalyze { initialAppState with currentFile := some ⟨"a.png", "D"⟩ }
      ⟨Except.error "boom", Except.error "boom", Except.error "boom"⟩
    = processPrescription ⟨"a.png", "D"⟩
      ⟨Except.error "boom", Except.error "boom", Except.error "boom"⟩ :=
  c8_clear_resets_collector_only ⟨some "p", "a.png"⟩
    { initialAppState with currentFile := some ⟨"a.png", "D"⟩ }
    ⟨"a.png", "D"⟩
    ⟨Except.error "boom", Except.error "boom", Except.error "boom"⟩ rfl

/-- True when a step response fails: the request throws, or the body
carries success:false. -/
def respFailedOcr : Except String OcrData → Bool
  | Except.error _ => true
  | Except.ok o => !o.success

/-- True when the extraction response fails (throw or success:false). -/
def respFailedMeds : Except String MedsData → Bool
  | Except.error _ => true
  | Except.ok m => !m.success

def isExtractMedsRequest : Request → Bool
  | Request.extractMeds _ => true
  | _ => false

def isMedInfoRequest : Request → Bool
  | Request.medInfo _ => true
  | _ => false

/-- Claim C2: a failing step prevents every later step's request from
being issued — an OCR failure (throw or success:false) means zero
extract-meds and zero med-info requests, and an extraction failure
means zero med-info requests.  An info failure is last, so nothing
follows it by construction. -/
theorem c2_failure_stops_pipeline (f : FileRef) (env : Env) :
    (respFailedOcr env.ocr = true →
      (requestsOf (processPrescription f env)).countP isExtractMedsRequest = 0
      ∧ (requestsOf (processPrescription f env)).countP isMedInfoRequest = 0)
  ∧ (respFailedMeds env.meds = true →
      (requestsOf (processPrescription f env)).countP isMedInfoRequest = 0) := by
  obtain ⟨ocr, meds, info⟩ := env
  cases ocr with
  | error e =>
    simp [processPrescription, tryBody, requestsOf, respFailedOcr, respFailedMeds,
      isExtractMedsRequest, isMedInfoRequest]
  | ok o =>
    cases meds with
    | error e =>
      cases ho : o.success <;>
        simp [processPrescription, tryBody, ho, requestsOf, respFailedOcr,
          respFailedMeds, isExtractMedsRequest, isMedInfoRequest]
    | ok m =>
      cases info with
      | error e =>
        cases ho : o.success <;> cases hm : m.success <;>
          simp [processPrescription, tryBody, ho, hm, requestsOf, respFailedOcr,
            respFailedMeds, isExtractMedsRequest, isMedInfoRequest]
      | ok i =>
        cases ho : o.success <;> cases hm : m.success <;> cases hi : i.success <;>
          simp [processPrescription, tryBody, ho, hm, hi, requestsOf, respFailedOcr,
            respFailedMeds, isExtractMedsRequest, isMedInfoRequest]

/-- Witness for c2_failure_stops_pipeline: an OCR response with
success:false issues no extract-meds and no med-info request, and a
thrown extraction request issues no med-info request. -/
theorem c2_failure_stops_pipeline_witness :
    ((requestsOf (processPrescription ⟨"rx1.jpg", "IMGDATA"⟩
        ⟨Except.ok ⟨false, "", "Could not read image"⟩,
         Except.error "unreached", Except.error "unreached"⟩)).countP
        isExtractMedsRequest = 0
      ∧ (requestsOf (processPrescription ⟨"rx1.jpg", "IMGDATA"⟩
        ⟨Except.ok ⟨false, "", "Could not read image"⟩,
         Except.error "unreached", Except.error "unreached"⟩)).countP
        isMedInfoRequest = 0)
  ∧ (requestsOf (processPrescription ⟨"rx2.jpg", "IMGDATA"⟩
        ⟨Except.ok ⟨true, "some text", ""⟩,
         Except.error "connection refused", Except.error "unreached"⟩)).countP
        isMedInfoRequest = 0 :=
  ⟨(c2_failure_stops_pipeline ⟨"rx1.jpg", "IMGDATA"⟩
      ⟨Except.ok ⟨false, "", "Could not read image"⟩,
       Except.error "unreached", Except.error "unreached"⟩).1 (by decide),
   (c2_failure_stops_pipeline ⟨"rx2.jpg", "IMGDATA"⟩
      ⟨Except.ok ⟨true, "some text", ""⟩,
       Except.error "connection refused", Except.error "unreached"⟩).2 (by decide)⟩

theorem medicineFoundMessage_plain (m : MedsData)
    (hc : ¬(m.correction_summary ≠ "" ∧ m.correction_summary ≠ sentinelSummary)) :
    medicineFoundMessage m = medicineCountMessage m := by
  rw [medicineFoundMessage, if_neg hc]

theorem medicineFoundMessage_ne_appended (m : MedsData)
    (hc : ¬(m.correction_summary ≠ "" ∧ m.correction_summary ≠ sentinelSummary)) :
    medicineFoundMessage m
      ≠ medicineCountMessage m ++ "\n\n" ++ m.correction_summary := by
  intro h
  rw [medicineFoundMessage_plain m hc] at h
  have hl := congrArg String.length h
  have h2 : ("\n\n" : String).length = 2 := rfl
  simp [String.length_append, h2] at hl
  omega

/-- Claim C3: in a run whose extraction step succeeds, the
medicines-found chat message is the count-and-list text with the
correction summary appended if and only if the summary is a non-empty
string different from the sentinel "All medicine names were
accurate."; when the summary equals the sentinel (or is empty), the
message is exactly the count-and-list text. -/
theorem c3_correction_summary_gating (f : FileRef) (env : Env)
    (o : OcrData) (m : MedsData)
    (h1 : env.ocr = Except.ok o) (h2 : o.success = true)
    (h3 : env.meds = Except.ok m) (h4 : m.success = true) :
    (messagesOf (processPrescription f env))[2]?
      = some ⟨"ai", medicineFoundMessage m⟩
  ∧ (medicineFoundMessage m
      = medicineCountMessage m ++ "\n\n" ++ m.correction_summary
      ↔ (m.correction_summary ≠ "" ∧ m.correction_summary ≠ sentinelSummary))
  ∧ ((m.correction_summary = "" ∨ m.correction_summary = sentinelSummary) →
      medicineFoundMessage m = medicineCountMessage m) := by
  refine ⟨?_, ⟨?_, ?_⟩, ?_⟩
  · obtain ⟨ocr, meds, info⟩ := env
    simp only at h1 h3
    subst h1; subst h3
    cases info with
    | error e =>
      simp [processPrescription, tryBody, h2, h4, messagesOf]
    | ok i =>
      cases hi : i.success <;>
        simp [processPrescription, tryBody, h2, h4, hi, messagesOf]
  · intro h
    by_contra hc
    exact medicineFoundMessage_ne_appended m hc h
  · intro hc
    rw [medicineFoundMessage, if_pos hc]
  · intro h
    refine medicineFoundMessage_plain m ?_
    rcases h with h | h <;> simp [h]

/-- Witness for c3_correction_summary_gating: a run whose extraction
succeeds with a non-sentinel correction summary. -/
theorem c3_correction_summary_gating_witness :
    (messagesOf (processPrescription ⟨"rx1.jpg", "IMGDATA"⟩
        ⟨Except.ok ⟨true, "Paracitamol 500mg", ""⟩,
         Except.ok ⟨true, [⟨"Paracitamol", "Paracetamol", 90, "spelling", "", true⟩],
           "Corrected Paracitamol to Paracetamol."⟩,
         Except.error "later"⟩))[2]?
      = some ⟨"ai", medicineFoundMessage
          ⟨true, [⟨"Paracitamol", "Paracetamol", 90, "spelling", "", true⟩],
           "Corrected Paracitamol to Paracetamol."⟩⟩
  ∧ (medicineFoundMessage
        ⟨true, [⟨"Paracitamol", "Paracetamol", 90, "spelling", "", true⟩],
         "Corrected Paracitamol to Paracetamol."⟩
      = medicineCountMessage
          ⟨true, [⟨"Paracitamol", "Paracetamol", 90, "spelling", "", true⟩],
           "Corrected Paracitamol to Paracetamol."⟩
        ++ "\n\n" ++ "Corrected Paracitamol to Paracetamol."
      ↔ (("Corrected Paracitamol to Paracetamol." : String) ≠ ""
         ∧ ("Corrected Paracitamol to Paracetamol." : String) ≠ sentinelSummary))
  ∧ ((("Corrected Paracitamol to Paracetamol." : String) = ""
       ∨ ("Corrected Paracitamol to Paracetamol." : String) = sentinelSummary) →
      medicineFoundMessage
        ⟨true, [⟨"Paracitamol", "Paracetamol", 90, "spelling", "", true⟩],
         "Corrected Paracitamol to Paracetamol."⟩
      = medicineCountMessage
          ⟨true, [⟨"Paracitamol", "Paracetamol", 90, "spelling", "", true⟩],
           "Corrected Paracitamol to Paracetamol."⟩) :=
  c3_correction_summary_gating ⟨"rx1.jpg", "IMGDATA"⟩
    ⟨Except.ok ⟨true, "Paracitamol 500mg", ""⟩,
     Except.ok ⟨true, [⟨"Paracitamol", "Paracetamol", 90, "spelling", "", true⟩],
       "Corrected Paracitamol to Paracetamol."⟩,
     Except.error "later"⟩
    ⟨true, "Paracitamol 500mg", ""⟩
    ⟨true, [⟨"Paracitamol", "Paracetamol", 90, "spelling", "", true⟩],
     "Corrected Paracitamol to Paracetamol."⟩
    rfl rfl rfl rfl

theorem beq_false_of_ne {a b : String} (h : a ≠ b) : (a == b) = false :=
  beq_eq_false_iff_ne.mpr h

theorem prescriptionErrorMessage_head (e : String) :
    (prescriptionErrorMessage e).data.head? = some 'S' := by
  rw [prescriptionErrorMessage]
  exact head_append _ (head_append _ rfl)

theorem uploaded_beq_error (n e : String) :
    (("Uploaded prescription: " ++ n) == prescriptionErrorMessage e) = false :=
  beq_false_of_ne (string_ne_of_head (by
    rw [head_append n (rfl : ("Uploaded prescription: " : String).data.head? = some 'U'),
      prescriptionErrorMessage_head]
    decide))

theorem ocrWordsMessage_head (t : String) :
    (ocrWordsMessage t).data.head? = some 'I' := by
  rw [ocrWordsMessage]
  exact head_append _ (head_append _ rfl)

theorem ocrWords_beq_error (t e : String) :
    (ocrWordsMessage t == prescriptionErrorMessage e) = false :=
  beq_false_of_ne (string_ne_of_head (by
    rw [ocrWordsMessage_head, prescriptionErrorMessage_head]; decide))

theorem medicineCountMessage_head (m : MedsData) :
    (medicineCountMessage m).data.head? = some 'I' := by
  rw [medicineCountMessage]
  exact head_append _ (head_append _ (head_append _ rfl))

theorem medicineFoundMessage_head (m : MedsData) :
    (medicineFoundMessage m).data.head? = some 'I' := by
  rw [medicineFoundMessage]
  by_cases hc : m.correction_summary ≠ "" ∧ m.correction_summary ≠ sentinelSummary
  · rw [if_pos hc]
    exact head_append _ (head_append _ (medicineCountMessage_head m))
  · rw [if_neg hc]
    exact medicineCountMessage_head m

theorem medFound_beq_error (m : MedsData) (e : String) :
    (medicineFoundMessage m == prescriptionErrorMessage e) = false :=
  beq_false_of_ne (string_ne_of_head (by
    rw [medicineFoundMessage_head, prescriptionErrorMessage_head]; decide))

theorem complete_beq_error (e : String) :
    (analysisCompleteMessage == prescriptionErrorMessage e) = false :=
  beq_false_of_ne (string_ne_of_head (by
    rw [prescriptionErrorMessage_head]; decide))

/-- No message appended by the try block itself is the catch block's
error message: they all start with a different character. -/
theorem tryBody_no_error_message (f : FileRef) (env : Env) (e : String) :
    (messagesOf (tryBody f env).1).countP
      (fun msg => msg.content == prescriptionErrorMessage e) = 0 := by
  obtain ⟨ocr, meds, info⟩ := env
  cases ocr with
  | error e0 =>
    simp [tryBody, messagesOf, List.countP_cons, uploaded_beq_error]
  | ok o =>
    cases ho : o.success with
    | false =>
      simp [tryBody, ho, messagesOf, List.countP_cons, uploaded_beq_error]
    | true =>
      cases meds with
      | error e0 =>
        simp [tryBody, ho, messagesOf, List.countP_cons, uploaded_beq_error,
          ocrWords_beq_error]
      | ok m =>
        cases hm : m.success with
        | false =>
          simp [tryBody, ho, hm, messagesOf, List.countP_cons, uploaded_beq_error,
            ocrWords_beq_error]
        | true =>
          cases info with
          | error e0 =>
            simp [tryBody, ho, hm, messagesOf, List.countP_cons, uploaded_beq_error,
              ocrWords_beq_error, medFound_beq_error]
          | ok i =>
            cases hi : i.success <;>
              simp [tryBody, ho, hm, hi, messagesOf, List.countP_cons,
                uploaded_beq_error, ocrWords_beq_error, medFound_beq_error,
                complete_beq_error]

/-- The finally block leaves both in-flight flags false whatever the
run's outcome. -/
theorem run_resets_flags (f : FileRef) (env : Env) (s : AppState) :
    (applyEvents s (processPrescription f env)).isTyping = false
  ∧ (applyEvents s (processPrescription f env)).isProcessing = false := by
  cases he : (tryBody f env).2 with
  | none =>
    simp [processPrescription, he, applyEvents_append, applyEvents, applyEvent,
      applyUpdate]
  | some e =>
    simp [processPrescription, he, applyEvents_append, applyEvents, applyEvent,
      applyUpdate]

/-- Claim C5: whenever a pipeline run fails — a thrown transport error
or a success:false body at any of the three steps — exactly one AI
chat message describing the failure is appended, it is appended after
the messages of the successful steps, the typing and processing flags
are reset, and processPrescription remains a total function of the
run's inputs (the catch block converts every failure into these
effects). -/
theorem c5_failure_error_handling (f : FileRef) (env : Env) (s : AppState)
    (e : String) (h : runError f env = some e) :
    (messagesOf (processPrescription f env)).countP
        (fun msg => msg.content == prescriptionErrorMessage e) = 1
  ∧ messagesOf (processPrescription f env)
      = messagesOf (tryBody f env).1 ++ [⟨"ai", prescriptionErrorMessage e⟩]
  ∧ (applyEvents s (processPrescription f env)).isTyping = false
  ∧ (applyEvents s (processPrescription f env)).isProcessing = false := by
  have h2 : (tryBody f env).2 = some e := h
  refine ⟨?_, ?_, (run_resets_flags f env s).1, (run_resets_flags f env s).2⟩
  · have h3 := tryBody_no_error_message f env e
    simp only [messagesOf] at h3 ⊢
    simp [processPrescription, h2, List.countP_append, List.countP_cons, h3]
  · simp [processPrescription, h2, messagesOf]

/-- Witness for c5_failure_error_handling: an extraction step whose
request throws a network error. -/
theorem c5_failure_error_handling_witness :
    runError ⟨"rx1.jpg", "IMGDATA"⟩
      ⟨Except.ok ⟨true, "Paracetamol 500mg", ""⟩,
       Except.error "timeout of 30000ms exceeded", Except.error "unreached"⟩
      = some "timeout of 30000ms exceeded"
  ∧ (messagesOf (processPrescription ⟨"rx1.jpg", "IMGDATA"⟩
      ⟨Except.ok ⟨true, "Paracetamol 500mg", ""⟩,
       Except.error "timeout of 30000ms exceeded", Except.error "unreached"⟩)).countP
      (fun msg => msg.content == prescriptionErrorMessage "timeout of 30000ms exceeded") = 1
  ∧ (applyEvents initialAppState (processPrescription ⟨"rx1.jpg", "IMGDATA"⟩
      ⟨Except.ok ⟨true, "Paracetamol 500mg", ""⟩,
       Except.error "timeout of 30000ms exceeded", Except.error "unreached"⟩)).isProcessing
      = false :=
  ⟨rfl,
   (c5_failure_error_handling ⟨"rx1.jpg", "IMGDATA"⟩
      ⟨Except.ok ⟨true, "Paracetamol 500mg", ""⟩,
       Except.error "timeout of 30000ms exceeded", Except.error "unreached"⟩
      initialAppState "timeout of 30000ms exceeded" rfl).1,
   (c5_failure_error_handling ⟨"rx1.jpg", "IMGDATA"⟩
      ⟨Except.ok ⟨true, "Paracetamol 500mg", ""⟩,
       Except.error "timeout of 30000ms exceeded", Except.error "unreached"⟩
      initialAppState "timeout of 30000ms exceeded" rfl).2.2.2⟩

/-- Claim C6: an extraction response with success:true and an empty
medicines list is not an error: the run throws nothing, proceeds
through the info step to completion (results modal shown, completion
payload stored) with zero medicine cards, and the medicines-found chat
message reports a count of zero. -/
theorem c6_zero_medicines_completes (f : FileRef) (env : Env) (s : AppState)
    (o : OcrData) (m : MedsData) (i : InfoData)
    (h1 : env.ocr = Except.ok o) (h2 : o.success = true)
    (h3 : env.meds = Except.ok m) (h4 : m.success = true)
    (h5 : m.medicines = [])
    (h6 : env.info = Except.ok i) (h7 : i.success = true)
    (h8 : i.medicines_info = []) :
    runError f env = none
  ∧ (applyEvents s (processPrescription f env)).medicines = []
  ∧ (applyEvents s (processPrescription f env)).showResultsModal = true
  ∧ (applyEvents s (processPrescription f env)).modalResults
      = some ⟨o.text, [], [], f.name⟩
  ∧ medicineCountMessage m = "I found 0 medicine(s) in your prescription: "
  ∧ (messagesOf (processPrescription f env))[2]?
      = some ⟨"ai", medicineFoundMessage m⟩ := by
  obtain ⟨ocr, meds, info⟩ := env
  simp only at h1 h3 h6
  subst h1; subst h3; subst h6
  refine ⟨?_, ?_, ?_, ?_, ?_, ?_⟩
  · simp [runError, tryBody, h2, h4, h7]
  · simp [processPrescription, tryBody, h2, h4, h7, h8, applyEvents, applyEvent,
      applyUpdate]
  · simp [processPrescription, tryBody, h2, h4, h7, applyEvents, applyEvent,
      applyUpdate]
  · simp [processPrescription, tryBody, h2, h4, h5, h7, h8, applyEvents, applyEvent,
      applyUpdate]
  · rw [medicineCountMessage, h5]
    rfl
  · simp [processPrescription, tryBody, h2, h4, h7, messagesOf]

/-- Witness for c6_zero_medicines_completes: a run whose extraction
succeeds with medicines: []. -/
theorem c6_zero_medicines_completes_witness :
    runError ⟨"rx1.jpg", "IMGDATA"⟩
      ⟨Except.ok ⟨true, "take rest and fluids", ""⟩,
       Except.ok ⟨true, [], "All medicine names were accurate."⟩,
       Except.ok ⟨true, []⟩⟩ = none
  ∧ (applyEvents initialAppState (processPrescription ⟨"rx1.jpg", "IMGDATA"⟩
      ⟨Except.ok ⟨true, "take rest and fluids", ""⟩,
       Except.ok ⟨true, [], "All medicine names were accurate."⟩,
       Except.ok ⟨true, []⟩⟩)).medicines = []
  ∧ (applyEvents initialAppState (processPrescription ⟨"rx1.jpg", "IMGDATA"⟩
      ⟨Except.ok ⟨true, "take rest and fluids", ""⟩,
       Except.ok ⟨true, [], "All medicine names were accurate."⟩,
       Except.ok ⟨true, []⟩⟩)).showResultsModal = true
  ∧ (applyEvents initialAppState (processPrescription ⟨"rx1.jpg", "IMGDATA"⟩
      ⟨Except.ok ⟨true, "take rest and fluids", ""⟩,
       Except.ok ⟨true, [], "All medicine names were accurate."⟩,
       Except.ok ⟨true, []⟩⟩)).modalResults
      = some ⟨"take rest and fluids", [], [], "rx1.jpg"⟩
  ∧ medicineCountMessage ⟨true, [], "All medicine names were accurate."⟩
      = "I found 0 medicine(s) in your prescription: "
  ∧ (messagesOf (processPrescription ⟨"rx1.jpg", "IMGDATA"⟩
      ⟨Except.ok ⟨true, "take rest and fluids", ""⟩,
       Except.ok ⟨true, [], "All medicine names were accurate."⟩,
       Except.ok ⟨true, []⟩⟩))[2]?
      = some ⟨"ai", medicineFoundMessage ⟨true, [], "All medicine names were accurate."⟩⟩ :=
  c6_zero_medicines_completes ⟨"rx1.jpg", "IMGDATA"⟩
    ⟨Except.ok ⟨true, "take rest and fluids", ""⟩,
     Except.ok ⟨true, [], "All medicine names were accurate."⟩,
     Except.ok ⟨true, []⟩⟩
    initialAppState
    ⟨true, "take rest and fluids", ""⟩
    ⟨true, [], "All medicine names were accurate."⟩
    ⟨true, []⟩
    rfl rfl rfl rfl rfl rfl rfl rfl

/-- getMedicineInfo answers with exactly the requested names: one
entry per name, in order, no additions and no omissions. -/
theorem getMedicineInfo_names (knowledge : String → Option MedicineInfo)
    (names : List String) :
    (getMedicineInfo knowledge names).medicines_info.map (fun r => r.name)
      = names := by
  induction names with
  | nil => rfl
  | cons n ns ih =>
    simp only [getMedicineInfo, List.map_cons] at ih ⊢
    cases knowledge n <;> simp_all

/-- Claim C4: in a run served by the med-info client of spec section
4.4 (modelled, since the backend is not among the sources), the names
of the stored MedicineInfo list are exactly the corrected names of the
run's stored MedicineCorrection list — no additions, no omissions, and
in the same order, because every entry is keyed by the requested
name. -/
theorem c4_info_names_match_corrections (f : FileRef) (s : AppState)
    (o : OcrData) (m : MedsData) (knowledge : String → Option MedicineInfo)
    (h2 : o.success = true) (h4 : m.success = true) :
    ((applyEvents s (processPrescription f
        ⟨Except.ok o, Except.ok m,
         Except.ok (getMedicineInfo knowledge
           (m.medicines.map fun med => med.corrected))⟩)).medicines.map
        fun r => r.name)
      = ((applyEvents s (processPrescription f
          ⟨Except.ok o, Except.ok m,
           Except.ok (getMedicineInfo knowledge
             (m.medicines.map fun med => med.corrected))⟩)).medicineCorrections.map
          fun med => med.corrected) := by
  have hsucc : (getMedicineInfo knowledge
      (m.medicines.map fun med => med.corrected)).success = true := rfl
  simp [processPrescription, tryBody, h2, h4, hsucc, applyEvents, applyEvent,
    applyUpdate, getMedicineInfo_names]

/-- Witness for c4_info_names_match_corrections: two corrections, one
name unknown to the knowledge base. -/
theorem c4_info_names_match_corrections_witness :
    ((applyEvents initialAppState (processPrescription ⟨"rx1.jpg", "IMGDATA"⟩
        ⟨Except.ok ⟨true, "Paracitamol and Ibuprofen", ""⟩,
         Except.ok ⟨true,
           [⟨"Paracitamol", "Paracetamol", 90, "spelling", "", true⟩,
            ⟨"Ibuprofen", "Ibuprofen", 99, "none", "", true⟩],
           "Corrected Paracitamol to Paracetamol."⟩,
         Except.ok (getMedicineInfo (fun _ => none)
           (([⟨"Paracitamol", "Paracetamol", 90, "spelling", "", true⟩,
              ⟨"Ibuprofen", "Ibuprofen", 99, "none", "", true⟩]
             : List MedicineCorrection).map fun med => med.corrected))⟩)).medicines.map
        fun r => r.name)
      = ((applyEvents initialAppState (processPrescription ⟨"rx1.jpg", "IMGDATA"⟩
        ⟨Except.ok ⟨true, "Paracitamol and Ibuprofen", ""⟩,
         Except.ok ⟨true,
           [⟨"Paracitamol", "Paracetamol", 90, "spelling", "", true⟩,
            ⟨"Ibuprofen", "Ibuprofen", 99, "none", "", true⟩],
           "Corrected Paracitamol to Paracetamol."⟩,
         Except.ok (getMedicineInfo (fun _ => none)
           (([⟨"Paracitamol", "Paracetamol", 90, "spelling", "", true⟩,
              ⟨"Ibuprofen", "Ibuprofen", 99, "none", "", true⟩]
             : List MedicineCorrection).map fun med => med.corrected))⟩)).medicineCorrections.map
          fun med => med.corrected) :=
  c4_info_names_match_corrections ⟨"rx1.jpg", "IMGDATA"⟩ initialAppState
    ⟨true, "Paracitamol and Ibuprofen", ""⟩
    ⟨true,
     [⟨"Paracitamol", "Paracetamol", 90, "spelling", "", true⟩,
      ⟨"Ibuprofen", "Ibuprofen", 99, "none", "", true⟩],
     "Corrected Paracitamol to Paracetamol."⟩
    (fun _ => none) rfl rfl

/-- A fully successful run overwrites the displayed fields with its
own values whatever state it starts from. -/
theorem run_success_display (s : AppState) (f : FileRef) (env : Env)
    (o : OcrData) (m : MedsData) (i : InfoData)
    (h1 : env.ocr = Except.ok o) (h2 : o.success = true)
    (h3 : env.meds = Except.ok m) (h4 : m.success = true)
    (h5 : env.info = Except.ok i) (h6 : i.success = true) :
    (applyEvents s (processPrescription f env)).extractedText = o.text
  ∧ (applyEvents s (processPrescription f env)).medicines = i.medicines_info
  ∧ (applyEvents s (processPrescription f env)).medicineCorrections = m.medicines
  ∧ (applyEvents s (processPrescription f env)).modalResults
      = some ⟨o.text, i.medicines_info, m.medicines, f.name⟩ := by
  obtain ⟨ocr, meds, info⟩ := env
  simp only at h1 h3 h5
  subst h1; subst h3; subst h5
  refine ⟨?_, ?_, ?_, ?_⟩ <;>
    simp [processPrescription, tryBody, h2, h4, h6, applyEvents, applyEvent,
      applyUpdate]

/-- Run A of the C1 schedule: a fully successful run on a.jpg. -/
def envA_c1 : Env :=
  ⟨Except.ok ⟨true, "alpha text", ""⟩,
   Except.ok ⟨true, [⟨"Aspirin", "Aspirin", 95, "none", "", true⟩],
     "All medicine names were accurate."⟩,
   Except.ok ⟨true, [⟨"Aspirin", "analgesic", "", "", "", "", true⟩]⟩⟩

/-- Run B of the C1 schedule: a fully successful run on b.jpg. -/
def envB_c1 : Env :=
  ⟨Except.ok ⟨true, "beta text", ""⟩,
   Except.ok ⟨true, [⟨"Ibuprofen", "Ibuprofen", 99, "none", "", true⟩],
     "All medicine names were accurate."⟩,
   Except.ok ⟨true, [⟨"Ibuprofen", "antiinflammatory", "", "", "", "", true⟩]⟩⟩

/-- Trace of run A. -/
def runA_c1 : List Event := processPrescription ⟨"a.jpg", "AAA"⟩ envA_c1

/-- Trace of run B. -/
def runB_c1 : List Event := processPrescription ⟨"b.jpg", "BBB"⟩ envB_c1

/-- The schedule in which run A performs its synchronous prefix (set
flags, append the user message, issue the OCR request), run B then
starts and completes in full, and only afterwards A's OCR response
arrives and the rest of A runs to completion. -/
def schedule_c1 : List Event :=
  runA_c1.take 4 ++ (runB_c1 ++ runA_c1.drop 4)

/-- Claim C1, counterexample: the code has no run identity and never
discards a superseded run's responses.  In the schedule where run A's
responses resolve after run B starts (here: after B completes), the
displayed extracted text and medicines are A's, not B's, so the final
state does not reflect only run B. -/
theorem c1_stale_response_applied :
    Interleave runA_c1 runB_c1 schedule_c1
  ∧ (applyEvents initialAppState schedule_c1).extractedText = "alpha text"
  ∧ (applyEvents initialAppState runB_c1).extractedText = "beta text"
  ∧ (applyEvents initialAppState schedule_c1).medicines
      = [⟨"Aspirin", "analgesic", "", "", "", "", true⟩]
  ∧ (applyEvents initialAppState runB_c1).medicines
      = [⟨"Ibuprofen", "antiinflammatory", "", "", "", "", true⟩] := by
  refine ⟨?_, by decide, by decide, by decide, by decide⟩
  have h1 : Interleave (runA_c1.drop 4) [] (runA_c1.drop 4) :=
    interleave_nil_left _
  have h2 := interleave_prepend_right runB_c1 h1
  rw [List.append_nil] at h2
  have h3 := interleave_prepend_left (runA_c1.take 4) h2
  rw [List.take_append_drop] at h3
  exact h3

/-- Claim C1, amended: a superseded run's late-arriving responses are
applied rather than discarded — the displayed state after all events
reflects whichever run's updates were applied last.  In particular,
for the interleaving in which superseded run A's events all land after
run B's, the final extracted text, medicines, corrections and modal
payload are A's. -/
theorem c1_superseded_run_overwrites (s : AppState) (fA fB : FileRef)
    (envA envB : Env) (o : OcrData) (m : MedsData) (i : InfoData)
    (h1 : envA.ocr = Except.ok o) (h2 : o.success = true)
    (h3 : envA.meds = Except.ok m) (h4 : m.success = true)
    (h5 : envA.info = Except.ok i) (h6 : i.success = true) :
    Interleave (processPrescription fA envA) (processPrescription fB envB)
      (processPrescription fB envB ++ processPrescription fA envA)
  ∧ (applyEvents s (processPrescription fB envB
      ++ processPrescription fA envA)).extractedText = o.text
  ∧ (applyEvents s (processPrescription fB envB
      ++ processPrescription fA envA)).medicines = i.medicines_info
  ∧ (applyEvents s (processPrescription fB envB
      ++ processPrescription fA envA)).medicineCorrections = m.medicines
  ∧ (applyEvents s (processPrescription fB envB
      ++ processPrescription fA envA)).modalResults
      = some ⟨o.text, i.medicines_info, m.medicines, fA.name⟩ := by
  have hint : Interleave (processPrescription fA envA) []
      (processPrescription fA envA) := interleave_nil_left _
  have hint2 := interleave_prepend_right (processPrescription fB envB) hint
  rw [List.append_nil] at hint2
  have hd := run_success_display (applyEvents s (processPrescription fB envB))
    fA envA o m i h1 h2 h3 h4 h5 h6
  rw [applyEvents_append]
  exact ⟨hint2, hd.1, hd.2.1, hd.2.2.1, hd.2.2.2⟩

/-- Witness for c1_superseded_run_overwrites at the concrete C1 runs. -/
theorem c1_superseded_run_overwrites_witness :
    Interleave runA_c1 runB_c1 (runB_c1 ++ runA_c1)
  ∧ (applyEvents initialAppState (runB_c1 ++ runA_c1)).extractedText
      = "alpha text"
  ∧ (applyEvents initialAppState (runB_c1 ++ runA_c1)).medicines
      = [⟨"Aspirin", "analgesic", "", "", "", "", true⟩]
  ∧ (applyEvents initialAppState (runB_c1 ++ runA_c1)).medicineCorrections
      = [⟨"Aspirin", "Aspirin", 95, "none", "", true⟩]
  ∧ (applyEvents initialAppState (runB_c1 ++ runA_c1)).modalResults
      = some ⟨"alpha text", [⟨"Aspirin", "analgesic", "", "", "", "", true⟩],
          [⟨"Aspirin", "Aspirin", 95, "none", "", true⟩], "a.jpg"⟩ :=
  c1_superseded_run_overwrites initialAppState ⟨"a.jpg", "AAA"⟩ ⟨"b.jpg", "BBB"⟩
    envA_c1 envB_c1
    ⟨true, "alpha text", ""⟩
    ⟨true, [⟨"Aspirin", "Aspirin", 95, "none", "", true⟩],
     "All medicine names were accurate."⟩
    ⟨true, [⟨"Aspirin", "analgesic", "", "", "", "", true⟩]⟩
    rfl rfl rfl rfl rfl rfl

end Rx
